import Mathlib

/-!
# Verification of the multi-agent stock analysis engine

Shallow embedding of the scoring and aggregation core of the repository
(`src/core/base_agent.py`, `src/core/orchestrator.py`, and the score
computations of `src/agents/fundamental_agent.py`,
`src/agents/macro_context_agent.py`, `src/agents/risk_assessment_agent.py`).

Modelling conventions:
* Python floats are modelled as exact rationals (`ℚ`).  Every numeric literal
  appearing in the source is an exact decimal, so the decision logic
  (threshold comparisons, weighted averages) is represented exactly.
* Python dict fields that may be absent are `Option` fields; `dict.get`
  with a default is `Option.getD`.
* Python truthiness of a numeric value (`if x:`) is `pyTruthy`:
  present and nonzero.
* Fallible code (a Python expression that can raise) returns `Option` or
  `Except`; the exceptional case is the `none` / `.error` branch.
* The `timestamp` fields (wall-clock strings) are omitted from result
  records: no decision logic reads them.  The *evaluation* of the
  `datetime.now()` expression in `fundamental_agent.py` is modelled
  explicitly, because that module never imports `datetime`
  (see `fundamentalAgentImportedNames`).
-/

namespace StockAnalysis

/-- The six ordinal recommendation signals (string constants in the source). -/
inductive Signal
  | strongBuy
  | buy
  | hold
  | weakHold
  | sell
  | strongSell
deriving DecidableEq, Repr

/-- Ordinal rank of a signal, STRONG_SELL = 0 up to STRONG_BUY = 5. -/
def signalRank : Signal → ℕ
  | .strongSell => 0
  | .sell => 1
  | .weakHold => 2
  | .hold => 3
  | .buy => 4
  | .strongBuy => 5

/-- All six signals (used to compute the maximum of the per-signal counts). -/
def allSignals : List Signal :=
  [.strongBuy, .buy, .hold, .weakHold, .sell, .strongSell]

/-- The five agent identifiers (the keys of `self.agents` in
`src/core/orchestrator.py` lines 19-25). -/
inductive AgentName
  | fundamental
  | technical
  | peer_comparison
  | macro_context
  | risk_assessment
deriving DecidableEq, Repr

/-- The dictionary key string of each agent. -/
def agentKey : AgentName → String
  | .fundamental => "fundamental"
  | .technical => "technical"
  | .peer_comparison => "peer_comparison"
  | .macro_context => "macro_context"
  | .risk_assessment => "risk_assessment"

/-- Static agent weights, `src/core/orchestrator.py` lines 28-34. -/
def weights : AgentName → ℚ
  | .fundamental => 0.30
  | .technical => 0.25
  | .peer_comparison => 0.15
  | .macro_context => 0.15
  | .risk_assessment => 0.15

/-- The key-metric snapshot fields that the orchestrator's insight
extraction reads (`src/core/orchestrator.py` lines 263-288).  Agents put
further diagnostic keys into `key_metrics`; none of them is read by the
aggregation core, so the embedding keeps only the read ones. -/
structure KeyMetrics where
  pe_ratio : Option ℚ
  roe : Option ℚ
  rsi14 : Option ℚ
  debt_to_equity : Option ℚ
deriving DecidableEq, Repr

/-- A per-agent result dictionary.  Every field is optional because the
orchestrator tests key membership (`'overall_score' in result`,
`'scores' in result`, ...) before reading. -/
structure AgentResult where
  agent_name : Option String := none
  weight : Option ℚ := none
  scores : Option (List (String × ℚ)) := none
  overall_score : Option ℚ := none
  analysis : Option String := none
  key_metrics : Option KeyMetrics := none
  recommendation_signal : Option Signal := none
  confidence : Option ℚ := none
  error : Option String := none
deriving DecidableEq, Repr

/-- Python truthiness of an optional number: present and nonzero. -/
def pyTruthy : Option ℚ → Bool
  | none => false
  | some v => v != 0

/-! ## `src/core/base_agent.py` -/

/-- `BaseAgent.get_recommendation_signal`, `src/core/base_agent.py`
lines 18-31: the six-band score-to-signal table. -/
def getRecommendationSignal (score : ℚ) : Signal :=
  if score ≥ 0.75 then .strongBuy
  else if score ≥ 0.65 then .buy
  else if score ≥ 0.55 then .hold
  else if score ≥ 0.45 then .weakHold
  else if score ≥ 0.35 then .sell
  else .strongSell

/-- `BaseAgent.create_response`, `src/core/base_agent.py` lines 33-48.
The source computes `sum(scores.values()) / len(scores)` with no guard:
on an empty score set the division raises `ZeroDivisionError`, embedded
here as `none`. -/
def createResponse (name : String) (weight : ℚ) (scores : List (String × ℚ))
    (analysis : String) (key_metrics : KeyMetrics) (confidence : ℚ) :
    Option AgentResult :=
  if scores.length = 0 then none
  else
    let overall_score := (scores.map (fun kv => kv.2)).sum / (scores.length : ℚ)
    some
      { agent_name := some name
        weight := some weight
        scores := some scores
        overall_score := some overall_score
        analysis := some analysis
        key_metrics := some key_metrics
        recommendation_signal := some (getRecommendationSignal overall_score)
        confidence := some confidence
        error := none }

/-! ## `src/core/orchestrator.py` — aggregation -/

/-- Dictionary lookup in an association list of agent results (Python dict
keys are unique; the embedding returns the first match). -/
def lookupResult (results : List (AgentName × AgentResult)) (n : AgentName) :
    Option AgentResult :=
  match results with
  | [] => none
  | (k, r) :: rest => if k = n then some r else lookupResult rest n

/-- One iteration of the accumulation loop of `_aggregate_agent_results`,
`src/core/orchestrator.py` lines 121-128: if the active agent has a result
with an `overall_score` key, accumulate `score * weight` and `weight` and
record the score; otherwise leave the accumulator unchanged.  The
accumulator is `(total_weighted_score, total_weight, agent_scores)`. -/
def aggStep (results : List (AgentName × AgentResult))
    (acc : ℚ × ℚ × List (AgentName × ℚ)) (name : AgentName) :
    ℚ × ℚ × List (AgentName × ℚ) :=
  match lookupResult results name with
  | some r =>
    match r.overall_score with
    | some score =>
      (acc.1 + score * weights name, acc.2.1 + weights name,
       acc.2.2 ++ [(name, score)])
    | none => acc
  | none => acc

/-- The accumulation loop of `_aggregate_agent_results`,
`src/core/orchestrator.py` lines 117-128, over the active agents. -/
def weightedTotals (results : List (AgentName × AgentResult))
    (active : List AgentName) : ℚ × ℚ × List (AgentName × ℚ) :=
  active.foldl (aggStep results) (0, 0, [])

/-- The contribution test of the aggregation loop, in the claims' terms:
the agent has a result that carries an `overall_score` key (the `error`
field plays no role). -/
def contributesScore (results : List (AgentName × AgentResult))
    (n : AgentName) : Bool :=
  ((lookupResult results n).bind (fun r => r.overall_score)).isSome

/-- The overall score a contributing agent supplies (0 placeholder when it
does not contribute; only read under `contributesScore`). -/
def contributedScore (results : List (AgentName × AgentResult))
    (n : AgentName) : ℚ :=
  ((lookupResult results n).bind (fun r => r.overall_score)).getD 0

/-- `final_score`, `src/core/orchestrator.py` line 131:
`total_weighted_score / total_weight if total_weight > 0 else 0.5`. -/
def finalScoreOf (results : List (AgentName × AgentResult))
    (active : List AgentName) : ℚ :=
  let t := weightedTotals results active
  if t.2.1 > 0 then t.1 / t.2.1 else 0.5

/-- The base-signal derivation inside `_get_final_recommendation_signal`,
`src/core/orchestrator.py` lines 159-170 (textually the same band table as
`BaseAgent.get_recommendation_signal`). -/
def orchestratorBaseSignal (score : ℚ) : Signal :=
  if score ≥ 0.75 then .strongBuy
  else if score ≥ 0.65 then .buy
  else if score ≥ 0.55 then .hold
  else if score ≥ 0.45 then .weakHold
  else if score ≥ 0.35 then .sell
  else .strongSell

/-- The signals present in the result dictionary, in dict order
(`src/core/orchestrator.py` lines 173-176 and 205-208: every value of
`agent_results` that has a `recommendation_signal` key, whether or not the
agent is active, error-flagged, or score-bearing). -/
def presentSignals (results : List (AgentName × AgentResult)) : List Signal :=
  results.filterMap (fun p => p.2.recommendation_signal)

/-- `_get_final_recommendation_signal`, `src/core/orchestrator.py`
lines 155-188: six-band base signal, then consensus moderation gated on
`len(agent_signals) >= 3`. -/
def getFinalRecommendationSignal (score : ℚ)
    (results : List (AgentName × AgentResult)) : Signal :=
  let base_signal := orchestratorBaseSignal score
  let agent_signals := presentSignals results
  let strong_negative_count :=
    agent_signals.countP (fun s => decide (s = .strongSell ∨ s = .sell))
  let strong_positive_count :=
    agent_signals.countP (fun s => decide (s = .strongBuy ∨ s = .buy))
  if agent_signals.length ≥ 3 then
    if strong_negative_count ≥ 2 ∧ (base_signal = .strongBuy ∨ base_signal = .buy) then
      .hold
    else if strong_positive_count ≥ 2 ∧ (base_signal = .strongSell ∨ base_signal = .sell) then
      .weakHold
    else base_signal
  else base_signal

/-- `max(signal_counts.values())` of `_calculate_overall_confidence`
(`src/core/orchestrator.py` lines 212-216).  The Python dict maps each
distinct signal present to its count; for a nonempty signal list the
maximum over the dict values equals the maximum over all six signals of
the count (absent signals contribute 0 and the dict holds at least one
count ≥ 1). -/
def maxSignalCount (l : List Signal) : ℕ :=
  (allSignals.map (fun s => l.count s)).foldr Nat.max 0

/-- The confidence values collected by the loop of
`_calculate_overall_confidence` (`src/core/orchestrator.py`
lines 193-196): every active agent whose result is present and has a
`confidence` key contributes its value — error sentinels included. -/
def contributedConfidences (results : List (AgentName × AgentResult))
    (active : List AgentName) : List ℚ :=
  active.filterMap (fun n => (lookupResult results n).bind (fun r => r.confidence))

/-- `_calculate_overall_confidence`, `src/core/orchestrator.py`
lines 190-225. -/
def calcOverallConfidence (results : List (AgentName × AgentResult))
    (active : List AgentName) : ℚ :=
  let confidences := contributedConfidences results active
  if confidences.length = 0 then 0.5
  else
    let avg_confidence := confidences.sum / (confidences.length : ℚ)
    let agent_signals := presentSignals results
    if agent_signals.length ≥ 2 then
      let max_count := maxSignalCount agent_signals
      let consensus_factor : ℚ := (max_count : ℚ) / (agent_signals.length : ℚ)
      if consensus_factor ≥ 0.8 then min 0.95 (avg_confidence + 0.1)
      else if consensus_factor ≤ 0.4 then max 0.2 (avg_confidence - 0.1)
      else avg_confidence
    else avg_confidence

/-- Round a rational to the nearest integer, ties to even (the behaviour of
Python `round` on an exactly representable half). -/
def roundHalfEven (q : ℚ) : ℤ :=
  let f := ⌊q⌋
  let r := q - (f : ℚ)
  if r < 1/2 then f
  else if 1/2 < r then f + 1
  else if 2 ∣ f then f else f + 1

/-- `round(x, 3)` of the source, modelled as exact rounding of the rational
to 3 decimal places (the source rounds the nearest binary double; the two
agree on all values these theorems evaluate). -/
def round3 (q : ℚ) : ℚ := (roundHalfEven (q * 1000) : ℚ) / 1000

/-! ## `src/core/orchestrator.py` — insight / risk / opportunity extraction -/

/-- The key-insight messages of `_extract_key_insights`
(`src/core/orchestrator.py` lines 253-295).  Each constructor stands for
one of the f-strings of the source, carrying the interpolated number;
the decimal formatting of the number is out of scope. -/
inductive InsightMsg
  | attractiveValuation (pe : ℚ)
  | strongProfitability (roe : ℚ)
  | oversold
  | overbought
  | conservativeBalanceSheet
  | highDebtMonitoring
deriving DecidableEq, Repr

/-- Insights contributed by the `fundamental` entry
(`src/core/orchestrator.py` lines 259-269). -/
def fundInsights (results : List (AgentName × AgentResult)) : List InsightMsg :=
  match lookupResult results .fundamental with
  | some r =>
    match r.key_metrics with
    | some m =>
      (if pyTruthy m.pe_ratio ∧ m.pe_ratio.getD 0 < 15 then
        [InsightMsg.attractiveValuation (m.pe_ratio.getD 0)] else []) ++
      (if pyTruthy m.roe ∧ m.roe.getD 0 > 0.15 then
        [InsightMsg.strongProfitability (m.roe.getD 0)] else [])
    | none => []
  | none => []

/-- Insights contributed by the `technical` entry
(`src/core/orchestrator.py` lines 272-281). -/
def techInsights (results : List (AgentName × AgentResult)) : List InsightMsg :=
  match lookupResult results .technical with
  | some r =>
    match r.key_metrics with
    | some m =>
      if pyTruthy m.rsi14 ∧ m.rsi14.getD 0 < 30 then [InsightMsg.oversold]
      else if pyTruthy m.rsi14 ∧ m.rsi14.getD 0 > 70 then [InsightMsg.overbought]
      else []
    | none => []
  | none => []

/-- Insights contributed by the `risk_assessment` entry
(`src/core/orchestrator.py` lines 284-293). -/
def riskInsights (results : List (AgentName × AgentResult)) : List InsightMsg :=
  match lookupResult results .risk_assessment with
  | some r =>
    match r.key_metrics with
    | some m =>
      if pyTruthy m.debt_to_equity ∧ m.debt_to_equity.getD 0 < 0.3 then
        [InsightMsg.conservativeBalanceSheet]
      else if pyTruthy m.debt_to_equity ∧ m.debt_to_equity.getD 0 > 1.0 then
        [InsightMsg.highDebtMonitoring]
      else []
    | none => []
  | none => []

/-- `_extract_key_insights`, `src/core/orchestrator.py` lines 253-295:
fundamental, then technical, then risk-assessment insights, truncated
to 5. -/
def extractKeyInsights (results : List (AgentName × AgentResult)) :
    List InsightMsg :=
  (fundInsights results ++ techInsights results ++ riskInsights results).take 5

/-- `_get_risk_description`, `src/core/orchestrator.py` lines 335-355.
A miss in the nested map yields the empty string in the source, which the
caller drops (`if risk_description:`); embedded as `none`. -/
def getRiskDescription (agent : AgentName) (score_name : String) :
    Option String :=
  match agent with
  | .fundamental =>
    if score_name = "valuation_score" then some "Expensive valuation multiples"
    else if score_name = "profitability_score" then some "Weak profitability metrics"
    else if score_name = "financial_health_score" then some "Poor financial health"
    else none
  | .technical =>
    if score_name = "momentum_score" then some "Negative price momentum"
    else if score_name = "trend_score" then some "Bearish trend signals"
    else none
  | .risk_assessment =>
    if score_name = "valuation_risk_score" then some "High valuation risk"
    else if score_name = "financial_risk_score" then some "Elevated financial risk"
    else if score_name = "safety_margin_score" then some "Limited safety margin"
    else none
  | _ => none

/-- `_get_opportunity_description`, `src/core/orchestrator.py`
lines 357-376. -/
def getOpportunityDescription (agent : AgentName) (score_name : String) :
    Option String :=
  match agent with
  | .fundamental =>
    if score_name = "valuation_score" then some "Attractive valuation opportunity"
    else if score_name = "profitability_score" then some "Strong profitability metrics"
    else if score_name = "growth_score" then some "Solid growth prospects"
    else none
  | .technical =>
    if score_name = "momentum_score" then some "Positive momentum building"
    else if score_name = "trend_score" then some "Strong uptrend in place"
    else none
  | .macro_context =>
    if score_name = "gdp_impact_score" then some "Favorable economic environment"
    else if score_name = "market_sentiment_score" then some "Positive market sentiment"
    else none
  | _ => none

/-- The risk entries contributed by one result: every sub-score ≤ 0.4 whose
`(agent, name)` pair has a description (`src/core/orchestrator.py`
lines 303-312); a result without a `scores` key contributes nothing. -/
def riskEntriesOf (p : AgentName × AgentResult) : List String :=
  match p.2.scores with
  | some sc =>
    sc.filterMap (fun kv =>
      if kv.2 ≤ 0.4 then getRiskDescription p.1 kv.1 else none)
  | none => []

/-- `_extract_risk_factors`, `src/core/orchestrator.py` lines 297-314. -/
def extractRiskFactors (results : List (AgentName × AgentResult)) :
    List String :=
  (results.flatMap riskEntriesOf).take 4

/-- The opportunity entries contributed by one result: every sub-score
≥ 0.7 whose pair has a description (`src/core/orchestrator.py`
lines 322-331). -/
def oppEntriesOf (p : AgentName × AgentResult) : List String :=
  match p.2.scores with
  | some sc =>
    sc.filterMap (fun kv =>
      if kv.2 ≥ 0.7 then getOpportunityDescription p.1 kv.1 else none)
  | none => []

/-- `_extract_opportunities`, `src/core/orchestrator.py` lines 316-333. -/
def extractOpportunities (results : List (AgentName × AgentResult)) :
    List String :=
  (results.flatMap oppEntriesOf).take 4

/-- The `recommendation` part of the aggregated output together with the
extracted lists (`src/core/orchestrator.py` lines 142-153; the free-text
`summary_analysis` string is omitted — it is pure formatting read by no
claim). -/
structure Recommendation where
  signal : Signal
  score : ℚ
  confidence : ℚ
  agent_scores : List (AgentName × ℚ)
  key_insights : List InsightMsg
  risk_factors : List String
  opportunities : List String
deriving DecidableEq, Repr

/-- `_aggregate_agent_results`, `src/core/orchestrator.py` lines 113-153. -/
def aggregateAgentResults (results : List (AgentName × AgentResult))
    (active : List AgentName) : Recommendation :=
  let t := weightedTotals results active
  let final_score := if t.2.1 > 0 then t.1 / t.2.1 else 0.5
  { signal := getFinalRecommendationSignal final_score results
    score := round3 final_score
    confidence := round3 (calcOverallConfidence results active)
    agent_scores := t.2.2
    key_insights := extractKeyInsights results
    risk_factors := extractRiskFactors results
    opportunities := extractOpportunities results }

/-- `_create_agent_error`, `src/core/orchestrator.py` lines 378-387: the
result synthesized for an agent whose `analyze` call raised.  The dict has
no `scores`, `key_metrics` or `weight` key. -/
def createAgentError (agent_name : AgentName) (error_msg : String) :
    AgentResult :=
  { agent_name := some (agentKey agent_name)
    error := some error_msg
    overall_score := some 0.5
    confidence := some 0.1
    recommendation_signal := some .hold
    analysis := some ("Agent " ++ agentKey agent_name ++ " failed: " ++ error_msg) }

/-! ## `src/core/orchestrator.py` — agent selection -/

/-- ASCII lower-casing of one character (the effect of Python `str.lower`
on the ASCII queries at issue). -/
def asciiLowerChar (c : Char) : Char :=
  if 'A' ≤ c ∧ c ≤ 'Z' then Char.ofNat (c.toNat + 32) else c

/-- ASCII lower-casing of a string (`user_query.lower()`,
`src/core/orchestrator.py` line 81). -/
def asciiLower (s : String) : String :=
  ⟨s.data.map asciiLowerChar⟩

/-- Whether the second character list starts with the first. -/
def leadsWithChars : List Char → List Char → Bool
  | [], _ => true
  | _ :: _, [] => false
  | a :: as, b :: bs => a = b && leadsWithChars as bs

/-- Whether the needle occurs contiguously inside the haystack. -/
def hasSubChars (needle : List Char) : List Char → Bool
  | [] => needle.isEmpty
  | c :: rest => leadsWithChars needle (c :: rest) || hasSubChars needle rest

/-- Python substring membership `word in query_lower`. -/
def strContains (haystack needle : String) : Bool :=
  hasSubChars needle.data haystack.data

/-- The keyword scan of `_determine_active_agents` applied to the already
lower-cased query, `src/core/orchestrator.py` lines 83-111. -/
def determineFromLower (ql : String) : List AgentName :=
  if ["fundamental", "valuation", "p/e", "financial", "balance sheet"].any
      (fun w => strContains ql w) then
    [.fundamental, .peer_comparison, .risk_assessment]
  else if ["technical", "chart", "trend", "momentum", "rsi", "macd"].any
      (fun w => strContains ql w) then
    [.technical, .risk_assessment]
  else if ["compare", "peer", "sector", "vs", "against"].any
      (fun w => strContains ql w) then
    [.fundamental, .peer_comparison, .technical]
  else if ["macro", "economy", "gdp", "inflation", "interest rate"].any
      (fun w => strContains ql w) then
    [.macro_context, .fundamental, .risk_assessment]
  else if ["risk", "safe", "downside", "volatility"].any
      (fun w => strContains ql w) then
    [.risk_assessment, .fundamental, .technical]
  else if ["buy", "sell", "invest", "recommendation"].any
      (fun w => strContains ql w) then
    [.fundamental, .technical, .peer_comparison, .macro_context, .risk_assessment]
  else
    [.fundamental, .technical, .peer_comparison, .macro_context, .risk_assessment]

/-- `_determine_active_agents`, `src/core/orchestrator.py` lines 78-111:
lower-case the query, then run the first-match keyword scan (the default,
assigned first in the source, is returned when no category matches). -/
def determineActiveAgents (user_query : String) : List AgentName :=
  determineFromLower (asciiLower user_query)

/-! ## `src/agents/fundamental_agent.py` -/

/-- The fundamentals dictionary fields read by the scoring code
(`fetch_fundamentals` output; any may be absent). -/
structure Fundamentals where
  pe_ratio : Option ℚ := none
  pb_ratio : Option ℚ := none
  roe : Option ℚ := none
  profit_margin : Option ℚ := none
  debt_to_equity : Option ℚ := none
  revenue_growth : Option ℚ := none
  market_cap : Option ℚ := none
  sector : Option String := none
deriving DecidableEq, Repr

/-- Valuation sub-score, `src/agents/fundamental_agent.py` lines 46-65. -/
def valuationScore (f : Fundamentals) : ℚ :=
  let s0 : ℚ := 0.5
  let s1 :=
    if pyTruthy f.pe_ratio then
      let v := f.pe_ratio.getD 0
      if 10 ≤ v ∧ v ≤ 20 then s0 + 0.3
      else if v < 10 then s0 + 0.4
      else if v > 30 then s0 - 0.2
      else s0
    else s0
  let s2 :=
    if pyTruthy f.pb_ratio then
      let w := f.pb_ratio.getD 0
      if 1 ≤ w ∧ w ≤ 3 then s1 + 0.2
      else if w < 1 then s1 + 0.3
      else s1
    else s1
  max 0 (min 1 s2)

/-- Profitability sub-score, `src/agents/fundamental_agent.py`
lines 67-84. -/
def profitabilityScore (f : Fundamentals) : ℚ :=
  let s0 : ℚ := 0.5
  let s1 :=
    if pyTruthy f.roe ∧ f.roe.getD 0 > 0 then
      let v := f.roe.getD 0
      if v ≥ 0.15 then s0 + 0.3
      else if v ≥ 0.10 then s0 + 0.2
      else s0
    else s0
  let s2 :=
    if pyTruthy f.profit_margin ∧ f.profit_margin.getD 0 > 0 then
      let w := f.profit_margin.getD 0
      if w ≥ 0.15 then s1 + 0.2
      else if w ≥ 0.10 then s1 + 0.1
      else s1
    else s1
  max 0 (min 1 s2)

/-- Financial-health sub-score, `src/agents/fundamental_agent.py`
lines 86-100 (`is not None` test, no truthiness). -/
def financialHealthScore (f : Fundamentals) : ℚ :=
  match f.debt_to_equity with
  | none => 0.7
  | some d =>
    if d ≤ 0.3 then 0.9
    else if d ≤ 0.6 then 0.7
    else if d ≤ 1.0 then 0.5
    else 0.3

/-- Growth sub-score, `src/agents/fundamental_agent.py` lines 102-116. -/
def growthScore (f : Fundamentals) : ℚ :=
  if pyTruthy f.revenue_growth then
    let g := f.revenue_growth.getD 0
    if g ≥ 0.15 then 0.9
    else if g ≥ 0.10 then 0.7
    else if g ≥ 0.05 then 0.6
    else if g < 0 then 0.3
    else 0.5
  else 0.5

/-- `_calculate_fundamental_scores`, `src/agents/fundamental_agent.py`
lines 42-118, in dict insertion order. -/
def calculateFundamentalScores (f : Fundamentals) : List (String × ℚ) :=
  [("valuation_score", valuationScore f),
   ("profitability_score", profitabilityScore f),
   ("financial_health_score", financialHealthScore f),
   ("growth_score", growthScore f)]

/-- `_extract_key_metrics` restricted to the fields the orchestrator
reads, `src/agents/fundamental_agent.py` lines 185-196. -/
def fundamentalKeyMetrics (f : Fundamentals) : KeyMetrics :=
  { pe_ratio := f.pe_ratio, roe := f.roe, rsi14 := none,
    debt_to_equity := f.debt_to_equity }

/-- `_calculate_confidence`, `src/agents/fundamental_agent.py`
lines 198-202 (`is not None` availability count over four metrics). -/
def fundamentalConfidence (f : Fundamentals) : ℚ :=
  let available : ℕ :=
    (if f.pe_ratio.isSome then 1 else 0) + (if f.roe.isSome then 1 else 0) +
    (if f.debt_to_equity.isSome then 1 else 0) +
    (if f.profit_margin.isSome then 1 else 0)
  min 0.95 (0.5 + ((available : ℚ) / 4) * 0.4)

/-- A Python exception escaping a function of the embedded code. -/
inductive PyExc
  | nameError (missing : String)
  | zeroDivisionError
deriving DecidableEq, Repr

/-- The names bound at module level in `src/agents/fundamental_agent.py`
(lines 1-8: `sys`, `os`, `BaseAgent`, `PriceFetcher`, `Dict`, `Any`,
`pd`).  `datetime` is not among them: unlike every other agent module,
this one has no `from datetime import datetime` line. -/
def fundamentalAgentImportedNames : List String :=
  ["sys", "os", "BaseAgent", "PriceFetcher", "Dict", "Any", "pd"]

/-- `_create_error_response`, `src/agents/fundamental_agent.py`
lines 204-217.  Building the response dict evaluates `datetime.now()` for
the `timestamp` key; resolving the name `datetime` searches the module's
globals (`fundamentalAgentImportedNames`) and, failing, raises
`NameError`. -/
def fundamentalCreateErrorResponse (error_msg : String) :
    Except PyExc AgentResult :=
  if "datetime" ∈ fundamentalAgentImportedNames then
    .ok
      { agent_name := some "Fundamental_Analysis_Agent"
        weight := some 0.30
        error := some error_msg
        scores := some []
        overall_score := some 0.5
        analysis := some ("Unable to perform fundamental analysis: " ++ error_msg)
        key_metrics := some ⟨none, none, none, none⟩
        recommendation_signal := some .hold
        confidence := some 0.1 }
  else .error (.nameError "datetime")

/-- The outcome of the `fetch_fundamentals` call at the start of
`FundamentalAnalysisAgent.analyze` (an external collaborator): a dict
carrying an `"error"` key, a usable dict, or a raised exception (caught
by the agent's `except` handler). -/
inductive FetchResult
  | withError (msg : String)
  | ok (f : Fundamentals)
  | raised (msg : String)
deriving DecidableEq, Repr

/-- `FundamentalAnalysisAgent.analyze`, `src/agents/fundamental_agent.py`
lines 17-40, as a function of the fetch outcome.  The free-text rationale
built by `_generate_analysis` (pure string formatting) is abstracted as
the `analysisText` parameter. -/
def fundamentalAnalyze (fetch : FetchResult) (analysisText : String) :
    Except PyExc AgentResult :=
  match fetch with
  | .withError msg => fundamentalCreateErrorResponse msg
  | .raised msg => fundamentalCreateErrorResponse msg
  | .ok f =>
    match createResponse "Fundamental_Analysis_Agent" 0.30
        (calculateFundamentalScores f) analysisText (fundamentalKeyMetrics f)
        (fundamentalConfidence f) with
    | some r => .ok r
    | none => .error .zeroDivisionError

/-! ## `src/agents/macro_context_agent.py` -/

/-- One row of the `sector_sensitivities` table,
`src/agents/macro_context_agent.py` lines 17-25. -/
structure SectorSensitivity where
  interest_rates : ℚ
  gdp_growth : ℚ
  inflation : ℚ
  currency : ℚ
deriving DecidableEq, Repr

/-- `self.sector_sensitivities.get(sector, {})`. -/
def sectorSensitivities (sector : String) : Option SectorSensitivity :=
  if sector = "Technology" then some ⟨-0.3, 0.4, -0.2, 0.3⟩
  else if sector = "Banking" then some ⟨0.5, 0.6, -0.3, 0.1⟩
  else if sector = "Energy" then some ⟨-0.2, 0.3, 0.4, 0.2⟩
  else if sector = "Consumer" then some ⟨-0.4, 0.5, -0.5, -0.1⟩
  else if sector = "Healthcare" then some ⟨-0.1, 0.2, -0.1, 0.1⟩
  else if sector = "Industrials" then some ⟨-0.3, 0.7, -0.3, 0.2⟩
  else if sector = "Materials" then some ⟨-0.2, 0.6, 0.3, 0.3⟩
  else none

/-- The macro-indicator dictionary fields read by
`_calculate_macro_scores` (any may be absent; the source supplies
defaults via `.get`). -/
structure MacroData where
  india_gdp_growth : Option ℚ := none
  inflation_rate : Option ℚ := none
  repo_rate : Option ℚ := none
  usd_inr_rate : Option ℚ := none
  usd_inr_volatility : Option ℚ := none
  india_market_sentiment : Option String := none
  fii_flows : Option String := none
deriving DecidableEq, Repr

/-- GDP-impact sub-score, `src/agents/macro_context_agent.py`
lines 79-97. -/
def gdpImpactScore (sector : String) (md : MacroData) : ℚ :=
  let gdp_growth := md.india_gdp_growth.getD 6.0
  let gdp_score : ℚ :=
    if gdp_growth ≥ 7.0 then 0.8
    else if gdp_growth ≥ 6.0 then 0.7
    else if gdp_growth ≥ 5.0 then 0.5
    else 0.3
  let gdp_sensitivity :=
    match sectorSensitivities sector with
    | some sens => sens.gdp_growth
    | none => 0.3
  max 0 (min 1 (0.5 + (gdp_score - 0.5) * |gdp_sensitivity|))

/-- Interest-rate-impact sub-score, `src/agents/macro_context_agent.py`
lines 99-117. -/
def interestRateImpactScore (sector : String) (md : MacroData) : ℚ :=
  let repo_rate := md.repo_rate.getD 6.5
  let base : ℚ :=
    if repo_rate ≤ 5.0 then 0.7
    else if repo_rate ≤ 6.5 then 0.6
    else if repo_rate ≤ 8.0 then 0.4
    else 0.3
  let interest_sensitivity :=
    match sectorSensitivities sector with
    | some sens => sens.interest_rates
    | none => 0
  let adjusted := if interest_sensitivity < 0 then 1 - base + 0.5 else base
  max 0 (min 1 adjusted)

/-- Inflation-impact sub-score, `src/agents/macro_context_agent.py`
lines 119-132 (stored without a clamp). -/
def inflationImpactScore (md : MacroData) : ℚ :=
  let inflation := md.inflation_rate.getD 4.8
  if inflation ≤ 4.0 then 0.7
  else if inflation ≤ 6.0 then 0.6
  else if inflation ≤ 8.0 then 0.4
  else 0.2

/-- Currency-impact sub-score, `src/agents/macro_context_agent.py`
lines 134-153. -/
def currencyImpactScore (sector : String) (md : MacroData) : ℚ :=
  let usd_inr := md.usd_inr_rate.getD 83.0
  let currency_volatility := md.usd_inr_volatility.getD 1.0
  let s1 : ℚ :=
    if sector = "Technology" then
      if usd_inr ≥ 82 then 0.7
      else if usd_inr ≤ 78 then 0.4
      else 0.5
    else 0.5
  let s2 :=
    if currency_volatility ≤ 0.5 then s1 + 0.1
    else if currency_volatility ≥ 2.0 then s1 - 0.1
    else s1
  max 0 (min 1 s2)

/-- Market-sentiment sub-score, `src/agents/macro_context_agent.py`
lines 155-171. -/
def marketSentimentScore (md : MacroData) : ℚ :=
  let market_sentiment := md.india_market_sentiment.getD "NEUTRAL"
  let fii_flows := md.fii_flows.getD "NEUTRAL"
  let s1 : ℚ :=
    if market_sentiment = "BULLISH" then 0.5 + 0.2
    else if market_sentiment = "BEARISH" then 0.5 - 0.2
    else 0.5
  let s2 :=
    if fii_flows = "POSITIVE" then s1 + 0.1
    else if fii_flows = "NEGATIVE" then s1 - 0.1
    else s1
  max 0 (min 1 s2)

/-- `_calculate_macro_scores`, `src/agents/macro_context_agent.py`
lines 75-173, in dict insertion order. -/
def calculateMacroScores (sector : String) (md : MacroData) :
    List (String × ℚ) :=
  [("gdp_impact_score", gdpImpactScore sector md),
   ("interest_rate_impact_score", interestRateImpactScore sector md),
   ("inflation_impact_score", inflationImpactScore md),
   ("currency_impact_score", currencyImpactScore sector md),
   ("market_sentiment_score", marketSentimentScore md)]

/-! ## `src/agents/risk_assessment_agent.py` -/

/-- The price-data dictionary fields read by the risk scoring code. -/
structure PriceData where
  current_price : Option ℚ := none
  low_52w : Option ℚ := none
  high_52w : Option ℚ := none
  volume_avg : Option ℚ := none
deriving DecidableEq, Repr

/-- The two-year price history as the risk scoring code observes it.
`rows` is `len(hist)` (0 iff `hist.empty`); `volatility` and
`max_drawdown` are the annualized standard deviation and absolute maximum
drawdown that pandas computes when `rows ≥ 252` — the scoring code reads
them only through threshold comparisons, so they are universally
quantified abstract inputs here. -/
structure HistData where
  rows : ℕ
  volatility : ℚ
  max_drawdown : ℚ
deriving DecidableEq, Repr

/-- Valuation-risk sub-score, `src/agents/risk_assessment_agent.py`
lines 55-77. -/
def valuationRiskScore (f : Fundamentals) : ℚ :=
  let s0 : ℚ := 0.5
  let s1 :=
    if pyTruthy f.pe_ratio then
      let v := f.pe_ratio.getD 0
      if v ≤ 15 then s0 + 0.3
      else if v ≤ 25 then s0 + 0.1
      else if v ≥ 40 then s0 - 0.3
      else if v ≥ 30 then s0 - 0.1
      else s0
    else s0
  let s2 :=
    if pyTruthy f.pb_ratio then
      let w := f.pb_ratio.getD 0
      if w ≤ 2 then s1 + 0.2
      else if w ≥ 5 then s1 - 0.2
      else s1
    else s1
  max 0 (min 1 s2)

/-- Financial-risk sub-score, `src/agents/risk_assessment_agent.py`
lines 79-94 (`is not None` test). -/
def financialRiskScore (f : Fundamentals) : ℚ :=
  match f.debt_to_equity with
  | none => 0.7
  | some d =>
    if d ≤ 0.3 then 0.9
    else if d ≤ 0.6 then 0.7
    else if d ≤ 1.0 then 0.4
    else 0.2

/-- Volatility-risk sub-score, `src/agents/risk_assessment_agent.py`
lines 96-113. -/
def volatilityRiskScore (hist : HistData) : ℚ :=
  if 0 < hist.rows ∧ 252 ≤ hist.rows then
    if hist.volatility ≤ 0.20 then 0.8
    else if hist.volatility ≤ 0.35 then 0.6
    else if hist.volatility ≤ 0.50 then 0.4
    else 0.2
  else 0.5

/-- Liquidity-risk sub-score, `src/agents/risk_assessment_agent.py`
lines 115-136 (`.get` defaults of 0, then truthiness on the volume). -/
def liquidityRiskScore (f : Fundamentals) (pd : PriceData) : ℚ :=
  let market_cap := f.market_cap.getD 0
  let avg_volume := pd.volume_avg.getD 0
  let base : ℚ :=
    if market_cap ≥ 100000000000 then 0.8
    else if market_cap ≥ 50000000000 then 0.6
    else if market_cap ≥ 10000000000 then 0.4
    else 0.3
  if avg_volume ≠ 0 ∧ avg_volume > 1000000 then min 1.0 (base + 0.1)
  else if avg_volume ≠ 0 ∧ avg_volume < 100000 then max 0.1 (base - 0.2)
  else base

/-- Safety-margin sub-score, `src/agents/risk_assessment_agent.py`
lines 148-192. -/
def safetyMarginScore (f : Fundamentals) (pd : PriceData) : ℚ :=
  let current_price := pd.current_price.getD 0
  if current_price ≠ 0 ∧ pyTruthy f.pe_ratio then
    let pe := f.pe_ratio.getD 0
    let fair_pe : ℚ :=
      if pyTruthy f.roe then
        let r := f.roe.getD 0
        if r ≥ 0.20 then 20
        else if r ≥ 0.15 then 18
        else if r ≤ 0.10 then 12
        else 15
      else 15
    let estimated_eps := current_price / pe
    let intrinsic_value := estimated_eps * fair_pe
    if intrinsic_value > 0 then
      let safety_margin := (intrinsic_value - current_price) / intrinsic_value
      if safety_margin ≥ 0.30 then 0.9
      else if safety_margin ≥ 0.20 then 0.8
      else if safety_margin ≥ 0.10 then 0.7
      else if safety_margin ≥ 0 then 0.6
      else if safety_margin ≥ -0.20 then 0.4
      else 0.2
    else 0.5
  else 0.5

/-- Downside-risk sub-score before the drawdown adjustment,
`src/agents/risk_assessment_agent.py` lines 197-216.  When
`high_52w = low_52w` (all three prices truthy) the source's
`range_position` division raises `ZeroDivisionError` and no score is
stored at all; the embedding's total `ℚ` division (x / 0 = 0) assigns the
0.8 branch there, which is irrelevant to any bound claim since it also
lies in [0,1]. -/
def downsideRiskBase (pd : PriceData) : ℚ :=
  let current_price := pd.current_price.getD 0
  let low_52w := pd.low_52w.getD 0
  let high_52w := pd.high_52w.getD 0
  if current_price ≠ 0 ∧ low_52w ≠ 0 ∧ high_52w ≠ 0 then
    let range_position := (current_price - low_52w) / (high_52w - low_52w)
    if range_position ≥ 0.8 then 0.3
    else if range_position ≥ 0.6 then 0.5
    else if range_position ≥ 0.4 then 0.6
    else if range_position ≥ 0.2 then 0.7
    else 0.8
  else 0.5

/-- Downside-risk sub-score, `src/agents/risk_assessment_agent.py`
lines 194-233. -/
def downsideRiskScore (pd : PriceData) (hist : HistData) : ℚ :=
  let base := downsideRiskBase pd
  if 0 < hist.rows ∧ 252 ≤ hist.rows then
    if hist.max_drawdown ≤ 0.20 then min 1.0 (base + 0.1)
    else if hist.max_drawdown ≥ 0.50 then max 0.1 (base - 0.2)
    else base
  else base

/-- `_calculate_risk_scores`, `src/agents/risk_assessment_agent.py`
lines 50-146, in dict insertion order. -/
def calculateRiskScores (f : Fundamentals) (pd : PriceData)
    (hist : HistData) : List (String × ℚ) :=
  [("valuation_risk_score", valuationRiskScore f),
   ("financial_risk_score", financialRiskScore f),
   ("volatility_risk_score", volatilityRiskScore hist),
   ("liquidity_risk_score", liquidityRiskScore f pd),
   ("safety_margin_score", safetyMarginScore f pd),
   ("downside_risk_score", downsideRiskScore pd hist)]

/-! ## Shared helper lemmas -/

theorem clamp01_nonneg (x : ℚ) : 0 ≤ max 0 (min 1 x) := le_max_left 0 _

theorem clamp01_le_one (x : ℚ) : max 0 (min 1 x) ≤ 1 :=
  max_le (by norm_num) (min_le_left 1 x)

lemma valuationScore_mem (f : Fundamentals) :
    0 ≤ valuationScore f ∧ valuationScore f ≤ 1 :=
  ⟨clamp01_nonneg _, clamp01_le_one _⟩

lemma profitabilityScore_mem (f : Fundamentals) :
    0 ≤ profitabilityScore f ∧ profitabilityScore f ≤ 1 :=
  ⟨clamp01_nonneg _, clamp01_le_one _⟩

lemma financialHealthScore_mem (f : Fundamentals) :
    0 ≤ financialHealthScore f ∧ financialHealthScore f ≤ 1 := by
  unfold financialHealthScore
  rcases f.debt_to_equity with _ | d
  · norm_num
  · dsimp only
    split_ifs <;> norm_num

lemma growthScore_mem (f : Fundamentals) :
    0 ≤ growthScore f ∧ growthScore f ≤ 1 := by
  unfold growthScore
  dsimp only
  split_ifs <;> norm_num

lemma gdpImpactScore_mem (sector : String) (md : MacroData) :
    0 ≤ gdpImpactScore sector md ∧ gdpImpactScore sector md ≤ 1 :=
  ⟨clamp01_nonneg _, clamp01_le_one _⟩

lemma interestRateImpactScore_mem (sector : String) (md : MacroData) :
    0 ≤ interestRateImpactScore sector md ∧ interestRateImpactScore sector md ≤ 1 :=
  ⟨clamp01_nonneg _, clamp01_le_one _⟩

lemma inflationImpactScore_mem (md : MacroData) :
    0 ≤ inflationImpactScore md ∧ inflationImpactScore md ≤ 1 := by
  unfold inflationImpactScore
  dsimp only
  split_ifs <;> norm_num

lemma currencyImpactScore_mem (sector : String) (md : MacroData) :
    0 ≤ currencyImpactScore sector md ∧ currencyImpactScore sector md ≤ 1 :=
  ⟨clamp01_nonneg _, clamp01_le_one _⟩

lemma marketSentimentScore_mem (md : MacroData) :
    0 ≤ marketSentimentScore md ∧ marketSentimentScore md ≤ 1 :=
  ⟨clamp01_nonneg _, clamp01_le_one _⟩

lemma valuationRiskScore_mem (f : Fundamentals) :
    0 ≤ valuationRiskScore f ∧ valuationRiskScore f ≤ 1 :=
  ⟨clamp01_nonneg _, clamp01_le_one _⟩

lemma financialRiskScore_mem (f : Fundamentals) :
    0 ≤ financialRiskScore f ∧ financialRiskScore f ≤ 1 := by
  unfold financialRiskScore
  rcases f.debt_to_equity with _ | d
  · norm_num
  · dsimp only
    split_ifs <;> norm_num

lemma volatilityRiskScore_mem (hist : HistData) :
    0 ≤ volatilityRiskScore hist ∧ volatilityRiskScore hist ≤ 1 := by
  unfold volatilityRiskScore
  split_ifs <;> norm_num

lemma liquidityRiskScore_mem (f : Fundamentals) (pd : PriceData) :
    0 ≤ liquidityRiskScore f pd ∧ liquidityRiskScore f pd ≤ 1 := by
  unfold liquidityRiskScore
  dsimp only
  split_ifs <;> constructor <;> norm_num [min_def, max_def]

set_option maxHeartbeats 1000000 in
lemma safetyMarginScore_mem (f : Fundamentals) (pd : PriceData) :
    0 ≤ safetyMarginScore f pd ∧ safetyMarginScore f pd ≤ 1 := by
  unfold safetyMarginScore
  dsimp only
  split_ifs <;> norm_num

lemma downsideRiskScore_mem (pd : PriceData) (hist : HistData) :
    0 ≤ downsideRiskScore pd hist ∧ downsideRiskScore pd hist ≤ 1 := by
  have hb : 0 ≤ downsideRiskBase pd ∧ downsideRiskBase pd ≤ 1 := by
    unfold downsideRiskBase
    dsimp only
    split_ifs <;> norm_num
  obtain ⟨hb1, hb2⟩ := hb
  unfold downsideRiskScore
  dsimp only
  split_ifs <;> constructor <;> (try simp only [min_def, max_def]) <;>
    (try split_ifs) <;> linarith

lemma foldl_aggStep (results : List (AgentName × AgentResult)) :
    ∀ (active : List AgentName) (a b : ℚ) (c : List (AgentName × ℚ)),
      active.foldl (aggStep results) (a, b, c) =
        (a + ((active.filter (contributesScore results)).map
              (fun n => contributedScore results n * weights n)).sum,
         b + ((active.filter (contributesScore results)).map
              (fun n => weights n)).sum,
         c ++ (active.filter (contributesScore results)).map
              (fun n => (n, contributedScore results n))) := by
  intro active
  induction active with
  | nil => intro a b c; simp
  | cons n rest ih =>
    intro a b c
    rcases hlk : lookupResult results n with _ | r
    · have hc : contributesScore results n = false := by
        simp [contributesScore, hlk]
      simp only [List.foldl_cons, aggStep, hlk, List.filter_cons, hc,
        Bool.false_eq_true, if_false]
      exact ih a b c
    · rcases hos : r.overall_score with _ | s
      · have hc : contributesScore results n = false := by
          simp [contributesScore, hlk, hos]
        simp only [List.foldl_cons, aggStep, hlk, hos, List.filter_cons, hc,
          Bool.false_eq_true, if_false]
        exact ih a b c
      · have hc : contributesScore results n = true := by
          simp [contributesScore, hlk, hos]
        have hcs : contributedScore results n = s := by
          simp [contributedScore, hlk, hos]
        simp only [List.foldl_cons, aggStep, hlk, hos, List.filter_cons, hc,
          if_true, List.map_cons, List.sum_cons, hcs]
        rw [ih]
        simp only [Prod.mk.injEq]
        refine ⟨by ring, by ring, by simp⟩

/-- The aggregation loop in closed form: totals are the sums over exactly
the active agents whose result carries an `overall_score`. -/
lemma weightedTotals_eq (results : List (AgentName × AgentResult))
    (active : List AgentName) :
    weightedTotals results active =
      (((active.filter (contributesScore results)).map
         (fun n => contributedScore results n * weights n)).sum,
       ((active.filter (contributesScore results)).map
         (fun n => weights n)).sum,
       (active.filter (contributesScore results)).map
         (fun n => (n, contributedScore results n))) := by
  unfold weightedTotals
  rw [foldl_aggStep]
  simp

lemma round3_half : round3 (1/2) = 1/2 := by
  norm_num [round3, roundHalfEven]

/-- At a weighted score of exactly 1/2 the base signal is WEAK_HOLD
(the HOLD band needs ≥ 0.55), and consensus moderation never rewrites a
WEAK_HOLD base, whatever signals are present. -/
lemma finalSignal_half (results : List (AgentName × AgentResult)) :
    getFinalRecommendationSignal (1/2) results = .weakHold := by
  unfold getFinalRecommendationSignal orchestratorBaseSignal
  norm_num
  intro h1 h2 h
  exact absurd h (by decide)

/-- Aggregation when no active agent contributes a score and none
contributes a confidence: neutral score, WEAK_HOLD, confidence 0.5. -/
lemma aggregate_no_contributors (results : List (AgentName × AgentResult))
    (active : List AgentName)
    (hscore : ∀ n ∈ active,
      (lookupResult results n).bind (fun r => r.overall_score) = none)
    (hconf : ∀ n ∈ active,
      (lookupResult results n).bind (fun r => r.confidence) = none) :
    (aggregateAgentResults results active).score = 0.5 ∧
    (aggregateAgentResults results active).signal = .weakHold ∧
    (aggregateAgentResults results active).confidence = 0.5 := by
  have hfilter : active.filter (contributesScore results) = [] := by
    rw [List.filter_eq_nil_iff]
    intro n hn
    simp [contributesScore, hscore n hn]
  have hwt : weightedTotals results active = (0, 0, []) := by
    rw [weightedTotals_eq, hfilter]
    simp
  have hcfs : calcOverallConfidence results active = 0.5 := by
    unfold calcOverallConfidence
    have hnil : contributedConfidences results active = [] := by
      rw [contributedConfidences, List.filterMap_eq_nil_iff]
      intro n hn
      exact hconf n hn
    rw [hnil]
    norm_num
  unfold aggregateAgentResults
  dsimp only
  rw [hwt]
  norm_num [round3_half, finalSignal_half, hcfs]

/-! ## Claim theorems -/

/-- C1 (amended): when zero active agents contribute a usable result (no
active agent's result has an `overall_score`), the final score is the
neutral 0.5, but the final signal is WEAK_HOLD (0.5 falls in the
0.45–0.55 band, not the HOLD band), and — when additionally no active
agent's result carries a `confidence` value — the confidence is the
empty-list fallback 0.5, not a value ≤ 0.2. -/
theorem claim_C1_amended (results : List (AgentName × AgentResult))
    (active : List AgentName)
    (hscore : ∀ n ∈ active,
      (lookupResult results n).bind (fun r => r.overall_score) = none)
    (hconf : ∀ n ∈ active,
      (lookupResult results n).bind (fun r => r.confidence) = none) :
    (aggregateAgentResults results active).score = 0.5 ∧
    (aggregateAgentResults results active).signal = .weakHold ∧
    (aggregateAgentResults results active).confidence = 0.5 :=
  aggregate_no_contributors results active hscore hconf

/-- Counterexample to C1 as stated: with all five agents active and an
empty result dictionary — zero contributing agents — the recommendation's
signal is not HOLD (it is WEAK_HOLD) and its confidence is not ≤ 0.2
(it is 0.5). -/
theorem claim_C1_counterexample :
    (aggregateAgentResults []
      [AgentName.fundamental, AgentName.technical, AgentName.peer_comparison,
       AgentName.macro_context, AgentName.risk_assessment]).signal ≠
        Signal.hold ∧
    ¬ ((aggregateAgentResults []
      [AgentName.fundamental, AgentName.technical, AgentName.peer_comparison,
       AgentName.macro_context, AgentName.risk_assessment]).confidence ≤ 0.2) := by
  obtain ⟨h1, h2, h3⟩ := aggregate_no_contributors []
    [AgentName.fundamental, AgentName.technical, AgentName.peer_comparison,
     AgentName.macro_context, AgentName.risk_assessment]
    (by intro n hn; rfl) (by intro n hn; rfl)
  refine ⟨?_, ?_⟩
  · rw [h2]
    decide
  · rw [h3]
    norm_num

/-- Witness for C1 (amended), at the concrete input of an empty result
dictionary with one active agent. -/
theorem claim_C1_witness :
    (aggregateAgentResults [] [AgentName.fundamental]).score = 0.5 ∧
    (aggregateAgentResults [] [AgentName.fundamental]).signal = .weakHold ∧
    (aggregateAgentResults [] [AgentName.fundamental]).confidence = 0.5 :=
  claim_C1_amended [] [AgentName.fundamental]
    (by intro n hn; rfl) (by intro n hn; rfl)

/-- C2 (amended): every active agent whose result carries an
`overall_score` contributes to the weighted mean — the `error` field is
never consulted, so error sentinels (overall score 0.5) are included in
both sums.  When the contributing weight sum is positive, the final score
is the weighted sum over exactly those agents divided by their weight
sum. -/
theorem claim_C2_amended (results : List (AgentName × AgentResult))
    (active : List AgentName)
    (h : 0 < ((active.filter (contributesScore results)).map
          (fun n => weights n)).sum) :
    finalScoreOf results active =
      ((active.filter (contributesScore results)).map
        (fun n => contributedScore results n * weights n)).sum /
      ((active.filter (contributesScore results)).map
        (fun n => weights n)).sum := by
  unfold finalScoreOf
  rw [weightedTotals_eq]
  exact if_pos h

/-- Counterexample to C2 as stated: one normal agent (score 0.9, weight
0.30) plus one error sentinel synthesized for a raising agent (score 0.5,
weight 0.25, `error` set).  The claim's formula over non-error agents
alone predicts 0.9; the code includes the sentinel and yields
(0.9·0.30 + 0.5·0.25)/0.55 = 79/110 ≠ 0.9. -/
theorem claim_C2_counterexample :
    finalScoreOf
      [(AgentName.fundamental,
        { overall_score := some 0.9, recommendation_signal := some Signal.buy,
          confidence := some 0.9 }),
       (AgentName.technical, createAgentError AgentName.technical "exception")]
      [AgentName.fundamental, AgentName.technical] = 79/110 ∧
    (79/110 : ℚ) ≠ 9/10 := by
  constructor
  · simp +decide [finalScoreOf, weightedTotals, aggStep, lookupResult,
      createAgentError, weights]
    norm_num
  · norm_num

/-- Witness for C2 (amended), at a single contributing agent with score
0.8: the weight normalization is a no-op and the final score is
(0.8·0.30)/0.30. -/
theorem claim_C2_witness :
    finalScoreOf [(AgentName.fundamental, { overall_score := some 0.8 })]
      [AgentName.fundamental] =
      (([AgentName.fundamental].filter
          (contributesScore
            [(AgentName.fundamental, { overall_score := some 0.8 })])).map
        (fun n =>
          contributedScore
            [(AgentName.fundamental, { overall_score := some 0.8 })] n *
          weights n)).sum /
      (([AgentName.fundamental].filter
          (contributesScore
            [(AgentName.fundamental, { overall_score := some 0.8 })])).map
        (fun n => weights n)).sum :=
  claim_C2_amended
    [(AgentName.fundamental, { overall_score := some 0.8 })]
    [AgentName.fundamental]
    (by simp +decide [contributesScore, lookupResult, weights]
        norm_num)

/-- C3 (amended): consensus moderation is gated on the number of
signal-bearing results — error sentinels, whose signal is HOLD, count
toward the ≥ 3 threshold — not on the number of non-error contributors.
With fewer than 3 signal-bearing results the base signal is unchanged;
with at least 3, ≥ 2 SELL/STRONG_SELL signals downgrade a BUY-range base
to HOLD, and ≥ 2 BUY/STRONG_BUY signals upgrade a SELL-range base to
WEAK_HOLD. -/
theorem claim_C3_amended (score : ℚ) (results : List (AgentName × AgentResult)) :
    ((presentSignals results).length < 3 →
      getFinalRecommendationSignal score results = orchestratorBaseSignal score) ∧
    (3 ≤ (presentSignals results).length →
      2 ≤ (presentSignals results).countP
            (fun s => decide (s = .strongSell ∨ s = .sell)) →
      (orchestratorBaseSignal score = .strongBuy ∨
        orchestratorBaseSignal score = .buy) →
      getFinalRecommendationSignal score results = .hold) ∧
    (3 ≤ (presentSignals results).length →
      2 ≤ (presentSignals results).countP
            (fun s => decide (s = .strongBuy ∨ s = .buy)) →
      (orchestratorBaseSignal score = .strongSell ∨
        orchestratorBaseSignal score = .sell) →
      getFinalRecommendationSignal score results = .weakHold) := by
  refine ⟨?_, ?_, ?_⟩
  · intro hlen
    unfold getFinalRecommendationSignal
    dsimp only
    rw [if_neg (by omega)]
  · intro hlen hcnt hbase
    unfold getFinalRecommendationSignal
    dsimp only
    rw [if_pos hlen, if_pos ⟨hcnt, hbase⟩]
  · intro hlen hcnt hbase
    unfold getFinalRecommendationSignal
    dsimp only
    rw [if_pos hlen, if_neg ?_, if_pos ⟨hcnt, hbase⟩]
    rintro ⟨-, hb⟩
    rcases hbase with h2 | h2 <;> rcases hb with h3 | h3 <;>
      rw [h2] at h3 <;> exact Signal.noConfusion h3

/-- The three-result dictionary of the C3 counterexample: two normal
agents with score 0.9 and their own signal SELL, plus one error sentinel
synthesized for a raising agent. -/
def cex3Results : List (AgentName × AgentResult) :=
  [(AgentName.fundamental,
    { overall_score := some 0.9, recommendation_signal := some Signal.sell,
      confidence := some 0.8 }),
   (AgentName.technical,
    { overall_score := some 0.9, recommendation_signal := some Signal.sell,
      confidence := some 0.8 }),
   (AgentName.peer_comparison,
    createAgentError AgentName.peer_comparison "exception")]

/-- Counterexample to C3 as stated: exactly 2 non-error agents contribute,
both with signal SELL, and the weighted score 57/70 ≈ 0.814 is in the
STRONG_BUY band (BUY range); the claim demands no downgrade with only two
dissenting contributors, but the error sentinel's HOLD signal brings the
signal count to 3, so the code does downgrade to HOLD. -/
theorem claim_C3_counterexample :
    finalScoreOf cex3Results
      [AgentName.fundamental, AgentName.technical, AgentName.peer_comparison] =
      57/70 ∧
    orchestratorBaseSignal (57/70) = Signal.strongBuy ∧
    (cex3Results.filter (fun p => decide (p.2.error = none))).length = 2 ∧
    getFinalRecommendationSignal (57/70) cex3Results = Signal.hold := by
  refine ⟨?_, ?_, ?_, ?_⟩
  · simp +decide [finalScoreOf, weightedTotals, aggStep, lookupResult,
      cex3Results, createAgentError, weights]
    norm_num
  · unfold orchestratorBaseSignal
    norm_num
  · decide
  · simp +decide [getFinalRecommendationSignal, presentSignals, cex3Results,
      createAgentError, orchestratorBaseSignal]
    norm_num

/-- Witness for C3 (amended): with an empty result dictionary (0
signal-bearing results) the final signal at score 0.5 is the base
signal. -/
theorem claim_C3_witness :
    getFinalRecommendationSignal 0.5 [] = orchestratorBaseSignal 0.5 :=
  (claim_C3_amended 0.5 []).1 (by decide)

/-- C4: the claim that a hard failure makes the fundamental agent return
(never raise) its sentinel result is right about the intent and wrong
about the code: `src/agents/fundamental_agent.py` never imports
`datetime`, so `_create_error_response` — reached on a fetch error dict or
on any caught exception — raises `NameError` while building the sentinel,
and the exception escapes `analyze`. -/
theorem claim_C4_error_path_raises :
    "datetime" ∉ fundamentalAgentImportedNames ∧
    (∀ msg analysisText, fundamentalAnalyze (.withError msg) analysisText =
      .error (.nameError "datetime")) ∧
    (∀ msg analysisText, fundamentalAnalyze (.raised msg) analysisText =
      .error (.nameError "datetime")) :=
  ⟨by decide, fun _ _ => rfl, fun _ _ => rfl⟩

/-- C5 (amended): `create_response` succeeds exactly on a nonempty score
set, returning the arithmetic mean as the overall score; on an empty set
the unguarded `sum(scores.values()) / len(scores)` divides by zero. -/
theorem claim_C5_amended (name : String) (weight : ℚ)
    (scores : List (String × ℚ)) (analysis : String) (km : KeyMetrics)
    (confidence : ℚ) (h : scores ≠ []) :
    createResponse name weight scores analysis km confidence =
      some { agent_name := some name, weight := some weight,
             scores := some scores,
             overall_score := some
               ((scores.map (fun kv => kv.2)).sum / (scores.length : ℚ)),
             analysis := some analysis, key_metrics := some km,
             recommendation_signal := some (getRecommendationSignal
               ((scores.map (fun kv => kv.2)).sum / (scores.length : ℚ))),
             confidence := some confidence, error := none } := by
  unfold createResponse
  rw [if_neg (by simpa [List.length_eq_zero] using h)]

/-- Counterexample to C5 as stated: on the empty score set the
construction does not succeed with overall score 0.5 — the division by
`len(scores) = 0` raises (embedded as `none`). -/
theorem claim_C5_counterexample :
    createResponse "Fundamental_Analysis_Agent" 0.30 [] "analysis"
      ⟨none, none, none, none⟩ 0.5 = none := rfl

/-- Witness for C5 (amended) at a one-element score set. -/
theorem claim_C5_witness :
    createResponse "Technical_Analysis_Agent" 0.25 [("momentum_score", 1)]
      "strong" ⟨none, none, none, none⟩ 0.6 =
      some { agent_name := some "Technical_Analysis_Agent",
             weight := some 0.25,
             scores := some [("momentum_score", 1)],
             overall_score := some
               (([("momentum_score", (1 : ℚ))].map (fun kv => kv.2)).sum /
                 (([("momentum_score", (1 : ℚ))].length : ℚ))),
             analysis := some "strong",
             key_metrics := some ⟨none, none, none, none⟩,
             recommendation_signal := some (getRecommendationSignal
               (([("momentum_score", (1 : ℚ))].map (fun kv => kv.2)).sum /
                 (([("momentum_score", (1 : ℚ))].length : ℚ)))),
             confidence := some 0.6, error := none } :=
  claim_C5_amended "Technical_Analysis_Agent" 0.25 [("momentum_score", 1)]
    "strong" ⟨none, none, none, none⟩ 0.6 (by decide)

/-- C6 (amended): the confidence is the average over the active agents
whose result carries a `confidence` value — error sentinels included at
their 0.1, with no error-based exclusion — 0.5 when there are none; the
agreement adjustment is gated on ≥ 2 signal-bearing results (sentinels'
HOLD signals included): mode share ≥ 0.8 adds 0.1 capped at 0.95, share
≤ 0.4 subtracts 0.1 floored at 0.2, otherwise the raw average stands. -/
theorem claim_C6_amended (results : List (AgentName × AgentResult))
    (active : List AgentName) :
    (contributedConfidences results active = [] →
      calcOverallConfidence results active = 0.5) ∧
    (contributedConfidences results active ≠ [] →
      (presentSignals results).length < 2 →
      calcOverallConfidence results active =
        (contributedConfidences results active).sum /
          ((contributedConfidences results active).length : ℚ)) ∧
    (contributedConfidences results active ≠ [] →
      2 ≤ (presentSignals results).length →
      ((maxSignalCount (presentSignals results) : ℚ) /
          ((presentSignals results).length : ℚ) ≥ 0.8 →
        calcOverallConfidence results active =
          min 0.95 ((contributedConfidences results active).sum /
            ((contributedConfidences results active).length : ℚ) + 0.1)) ∧
      (¬ ((maxSignalCount (presentSignals results) : ℚ) /
          ((presentSignals results).length : ℚ) ≥ 0.8) →
        (maxSignalCount (presentSignals results) : ℚ) /
          ((presentSignals results).length : ℚ) ≤ 0.4 →
        calcOverallConfidence results active =
          max 0.2 ((contributedConfidences results active).sum /
            ((contributedConfidences results active).length : ℚ) - 0.1)) ∧
      (¬ ((maxSignalCount (presentSignals results) : ℚ) /
          ((presentSignals results).length : ℚ) ≥ 0.8) →
        ¬ ((maxSignalCount (presentSignals results) : ℚ) /
          ((presentSignals results).length : ℚ) ≤ 0.4) →
        calcOverallConfidence results active =
          (contributedConfidences results active).sum /
            ((contributedConfidences results active).length : ℚ))) := by
  refine ⟨?_, ?_, ?_⟩
  · intro h
    unfold calcOverallConfidence
    rw [if_pos (by rw [h]; rfl)]
  · intro h hlen
    unfold calcOverallConfidence
    dsimp only
    rw [if_neg (by simpa [List.length_eq_zero] using h), if_neg (by omega)]
  · intro h hlen
    have hne : ¬ ((contributedConfidences results active).length = 0) := by
      simpa [List.length_eq_zero] using h
    refine ⟨?_, ?_, ?_⟩
    · intro hshare
      unfold calcOverallConfidence
      dsimp only
      rw [if_neg hne, if_pos hlen, if_pos hshare]
    · intro hs1 hs2
      unfold calcOverallConfidence
      dsimp only
      rw [if_neg hne, if_pos hlen, if_neg hs1, if_pos hs2]
    · intro hs1 hs2
      unfold calcOverallConfidence
      dsimp only
      rw [if_neg hne, if_pos hlen, if_neg hs1, if_neg hs2]

/-- Counterexample to C6 as stated: one normal contributing agent
(confidence 0.9, signal BUY) plus one error sentinel (confidence 0.1,
signal HOLD).  Under the claim — sentinels excluded — fewer than 2 agents
contributed and the confidence would be the raw average 0.9; the code
averages both (0.5), sees 2 signals with mode share 1/2, and returns
0.5 ≠ 0.9. -/
theorem claim_C6_counterexample :
    calcOverallConfidence
      [(AgentName.fundamental,
        { overall_score := some 0.9, recommendation_signal := some Signal.buy,
          confidence := some 0.9 }),
       (AgentName.technical, createAgentError AgentName.technical "exception")]
      [AgentName.fundamental, AgentName.technical] = 1/2 ∧
    (1/2 : ℚ) ≠ 9/10 := by
  constructor
  · simp +decide [calcOverallConfidence, contributedConfidences, lookupResult,
      createAgentError, presentSignals, maxSignalCount, allSignals,
      List.count, List.countP, List.countP.go,
      show (Signal.hold == Signal.buy) = false from rfl]
    norm_num
  · norm_num

/-- Witness for C6 (amended): the no-confidences fallback at an empty
result dictionary. -/
theorem claim_C6_witness :
    calcOverallConfidence [] [AgentName.fundamental] = 0.5 :=
  (claim_C6_amended [] [AgentName.fundamental]).1 rfl

/-- C7: the score-to-signal converter is total and deterministic (it is a
function on all of ℚ), the orchestrator's base-signal derivation agrees
with the shared agent utility, the map is monotone (for `s1 < s2` the rank
of the first signal is at most the rank of the second), and it follows the
six-band table of the spec. -/
theorem claim_C7_score_to_signal :
    (∀ s : ℚ, orchestratorBaseSignal s = getRecommendationSignal s) ∧
    (∀ s1 s2 : ℚ, s1 < s2 →
      signalRank (getRecommendationSignal s1) ≤
        signalRank (getRecommendationSignal s2)) ∧
    (∀ s : ℚ,
      (0.75 ≤ s → getRecommendationSignal s = .strongBuy) ∧
      (0.65 ≤ s ∧ s < 0.75 → getRecommendationSignal s = .buy) ∧
      (0.55 ≤ s ∧ s < 0.65 → getRecommendationSignal s = .hold) ∧
      (0.45 ≤ s ∧ s < 0.55 → getRecommendationSignal s = .weakHold) ∧
      (0.35 ≤ s ∧ s < 0.45 → getRecommendationSignal s = .sell) ∧
      (s < 0.35 → getRecommendationSignal s = .strongSell)) := by
  refine ⟨fun s => rfl, ?_, ?_⟩
  · intro s1 s2 h
    unfold getRecommendationSignal
    split_ifs <;> simp [signalRank] <;> linarith
  · intro s
    unfold getRecommendationSignal
    refine ⟨?_, ?_, ?_, ?_, ?_, ?_⟩ <;> intro h <;> split_ifs <;>
      first
        | rfl
        | (exfalso; rcases h with ⟨h1, h2⟩ <;> linarith)
        | (exfalso; linarith)

/-- Witness for C7: the monotonicity clause at the concrete pair
`0.3 < 0.8`. -/
theorem claim_C7_witness :
    signalRank (getRecommendationSignal 0.3) ≤
      signalRank (getRecommendationSignal 0.8) :=
  claim_C7_score_to_signal.2.1 0.3 0.8 (by norm_num)

/-- C8: for every input — including absent fields, negative ratios and
arbitrarily large magnitudes — every sub-score stored by the fundamental,
macro-context and risk-assessment agents lies in [0, 1]. -/
theorem claim_C8_subscores_in_unit_interval (f : Fundamentals)
    (sector : String) (md : MacroData) (pd : PriceData) (hist : HistData) :
    (∀ kv ∈ calculateFundamentalScores f, 0 ≤ kv.2 ∧ kv.2 ≤ 1) ∧
    (∀ kv ∈ calculateMacroScores sector md, 0 ≤ kv.2 ∧ kv.2 ≤ 1) ∧
    (∀ kv ∈ calculateRiskScores f pd hist, 0 ≤ kv.2 ∧ kv.2 ≤ 1) := by
  refine ⟨?_, ?_, ?_⟩ <;> intro kv hkv
  · simp only [calculateFundamentalScores, List.mem_cons, List.not_mem_nil,
      or_false] at hkv
    rcases hkv with h | h | h | h <;> subst h
    · exact valuationScore_mem f
    · exact profitabilityScore_mem f
    · exact financialHealthScore_mem f
    · exact growthScore_mem f
  · simp only [calculateMacroScores, List.mem_cons, List.not_mem_nil,
      or_false] at hkv
    rcases hkv with h | h | h | h | h <;> subst h
    · exact gdpImpactScore_mem sector md
    · exact interestRateImpactScore_mem sector md
    · exact inflationImpactScore_mem md
    · exact currencyImpactScore_mem sector md
    · exact marketSentimentScore_mem md
  · simp only [calculateRiskScores, List.mem_cons, List.not_mem_nil,
      or_false] at hkv
    rcases hkv with h | h | h | h | h | h <;> subst h
    · exact valuationRiskScore_mem f
    · exact financialRiskScore_mem f
    · exact volatilityRiskScore_mem hist
    · exact liquidityRiskScore_mem f pd
    · exact safetyMarginScore_mem f pd
    · exact downsideRiskScore_mem pd hist

/-- Witness for C8: the bound at a concrete pathological input (negative
P/E, debt ratio far above 100, zero price history). -/
theorem claim_C8_witness :
    0 ≤ (("valuation_score", valuationScore
        { pe_ratio := some (-5), debt_to_equity := some 1000 }) : String × ℚ).2 ∧
      (("valuation_score", valuationScore
        { pe_ratio := some (-5), debt_to_equity := some 1000 }) : String × ℚ).2 ≤ 1 :=
  (claim_C8_subscores_in_unit_interval
      { pe_ratio := some (-5), debt_to_equity := some 1000 } "Technology" {}
      {} ⟨0, 0, 0⟩).1
    ("valuation_score", valuationScore
      { pe_ratio := some (-5), debt_to_equity := some 1000 })
    (List.mem_cons_self _ _)

/-- C9: the agent selector is a pure function of the lower-cased query
(identical text, identical list, categories in the source's fixed
if/elif order); any query lower-casing to "what's the technical setup?"
selects exactly [technical, risk_assessment], as do concrete casing and
punctuation variants; the empty query and a query matching no category
keyword select all five agents. -/
theorem claim_C9_selector :
    (∀ q : String, determineActiveAgents q = determineFromLower (asciiLower q)) ∧
    (∀ q : String, asciiLower q = "what's the technical setup?" →
      determineActiveAgents q = [.technical, .risk_assessment]) ∧
    determineActiveAgents "What's the technical setup?" =
      [.technical, .risk_assessment] ∧
    determineActiveAgents "WHAT'S THE TECHNICAL SETUP" =
      [.technical, .risk_assessment] ∧
    determineActiveAgents "Whats the technical setup!!" =
      [.technical, .risk_assessment] ∧
    determineActiveAgents "" =
      [.fundamental, .technical, .peer_comparison, .macro_context,
       .risk_assessment] ∧
    determineActiveAgents "tell me about this stock" =
      [.fundamental, .technical, .peer_comparison, .macro_context,
       .risk_assessment] := by
  refine ⟨fun q => rfl, ?_, by decide, by decide, by decide, by decide, by decide⟩
  intro q h
  unfold determineActiveAgents
  rw [h]
  decide

/-- Witness for C9, at a further concrete casing of the scenario-C
query. -/
theorem claim_C9_witness :
    determineActiveAgents "What's The Technical Setup?" =
      [.technical, .risk_assessment] :=
  claim_C9_selector.2.1 "What's The Technical Setup?" (by decide)

lemma lookupResult_insert (l1 l2 : List (AgentName × AgentResult))
    (n t : AgentName) (r : AgentResult)
    (h : lookupResult (l1 ++ l2) n = none) :
    lookupResult (l1 ++ (n, r) :: l2) t =
      if n = t then some r else lookupResult (l1 ++ l2) t := by
  induction l1 with
  | nil => simp [lookupResult]
  | cons hd tl ih =>
    obtain ⟨k0, r0⟩ := hd
    have hk0 : ¬ (k0 = n) := by
      intro hk
      simp [lookupResult, hk] at h
    have h' : lookupResult (tl ++ l2) n = none := by
      simpa [lookupResult, hk0] using h
    by_cases ht : k0 = t
    · have hnt : ¬ (n = t) := by
        intro he
        exact hk0 (by rw [ht, he])
      simp [lookupResult, ht, hnt]
    · simp only [List.cons_append, lookupResult, ht, if_false]
      exact ih h'

lemma riskEntriesOf_agentError (n : AgentName) (msg : String) :
    riskEntriesOf (n, createAgentError n msg) = [] := rfl

lemma oppEntriesOf_agentError (n : AgentName) (msg : String) :
    oppEntriesOf (n, createAgentError n msg) = [] := rfl

lemma extractRiskFactors_insert_error (l1 l2 : List (AgentName × AgentResult))
    (n : AgentName) (msg : String) :
    extractRiskFactors (l1 ++ (n, createAgentError n msg) :: l2) =
      extractRiskFactors (l1 ++ l2) := by
  unfold extractRiskFactors
  rw [List.flatMap_append, List.flatMap_cons, riskEntriesOf_agentError,
    List.flatMap_append]
  simp

lemma extractOpportunities_insert_error (l1 l2 : List (AgentName × AgentResult))
    (n : AgentName) (msg : String) :
    extractOpportunities (l1 ++ (n, createAgentError n msg) :: l2) =
      extractOpportunities (l1 ++ l2) := by
  unfold extractOpportunities
  rw [List.flatMap_append, List.flatMap_cons, oppEntriesOf_agentError,
    List.flatMap_append]
  simp

lemma fundInsights_insert_error (l1 l2 : List (AgentName × AgentResult))
    (n : AgentName) (msg : String)
    (h : lookupResult (l1 ++ l2) n = none) :
    fundInsights (l1 ++ (n, createAgentError n msg) :: l2) =
      fundInsights (l1 ++ l2) := by
  unfold fundInsights
  rw [lookupResult_insert l1 l2 n AgentName.fundamental _ h]
  by_cases hn : n = AgentName.fundamental
  · rw [if_pos hn, ← hn, h]
    rfl
  · rw [if_neg hn]

lemma techInsights_insert_error (l1 l2 : List (AgentName × AgentResult))
    (n : AgentName) (msg : String)
    (h : lookupResult (l1 ++ l2) n = none) :
    techInsights (l1 ++ (n, createAgentError n msg) :: l2) =
      techInsights (l1 ++ l2) := by
  unfold techInsights
  rw [lookupResult_insert l1 l2 n AgentName.technical _ h]
  by_cases hn : n = AgentName.technical
  · rw [if_pos hn, ← hn, h]
    rfl
  · rw [if_neg hn]

lemma riskInsights_insert_error (l1 l2 : List (AgentName × AgentResult))
    (n : AgentName) (msg : String)
    (h : lookupResult (l1 ++ l2) n = none) :
    riskInsights (l1 ++ (n, createAgentError n msg) :: l2) =
      riskInsights (l1 ++ l2) := by
  unfold riskInsights
  rw [lookupResult_insert l1 l2 n AgentName.risk_assessment _ h]
  by_cases hn : n = AgentName.risk_assessment
  · rw [if_pos hn, ← hn, h]
    rfl
  · rw [if_neg hn]

/-- C10: the error result synthesized by the orchestrator for a raising
agent carries neither a `scores` nor a `key_metrics` field, so inserting
it anywhere into the result dictionary (whose keys don't already hold the
agent) changes none of the key-insight, risk-factor or opportunity lists —
the extraction reads only those two fields — while its 0.5 overall score
and 0.1 confidence still enter the aggregate. -/
theorem claim_C10_error_sentinel_extraction
    (l1 l2 : List (AgentName × AgentResult)) (n : AgentName) (msg : String)
    (h : lookupResult (l1 ++ l2) n = none) :
    (createAgentError n msg).scores = none ∧
    (createAgentError n msg).key_metrics = none ∧
    (createAgentError n msg).overall_score = some 0.5 ∧
    (createAgentError n msg).confidence = some 0.1 ∧
    extractKeyInsights (l1 ++ (n, createAgentError n msg) :: l2) =
      extractKeyInsights (l1 ++ l2) ∧
    extractRiskFactors (l1 ++ (n, createAgentError n msg) :: l2) =
      extractRiskFactors (l1 ++ l2) ∧
    extractOpportunities (l1 ++ (n, createAgentError n msg) :: l2) =
      extractOpportunities (l1 ++ l2) := by
  refine ⟨rfl, rfl, rfl, rfl, ?_, extractRiskFactors_insert_error l1 l2 n msg,
    extractOpportunities_insert_error l1 l2 n msg⟩
  unfold extractKeyInsights
  rw [fundInsights_insert_error l1 l2 n msg h,
    techInsights_insert_error l1 l2 n msg h,
    riskInsights_insert_error l1 l2 n msg h]

/-- Witness for C10, inserting the sentinel into an empty result
dictionary. -/
theorem claim_C10_witness :
    (createAgentError AgentName.fundamental "boom").scores = none ∧
    (createAgentError AgentName.fundamental "boom").key_metrics = none ∧
    (createAgentError AgentName.fundamental "boom").overall_score = some 0.5 ∧
    (createAgentError AgentName.fundamental "boom").confidence = some 0.1 ∧
    extractKeyInsights
      ([] ++ (AgentName.fundamental,
        createAgentError AgentName.fundamental "boom") :: []) =
      extractKeyInsights ([] ++ []) ∧
    extractRiskFactors
      ([] ++ (AgentName.fundamental,
        createAgentError AgentName.fundamental "boom") :: []) =
      extractRiskFactors ([] ++ []) ∧
    extractOpportunities
      ([] ++ (AgentName.fundamental,
        createAgentError AgentName.fundamental "boom") :: []) =
      extractOpportunities ([] ++ []) :=
  claim_C10_error_sentinel_extraction [] [] AgentName.fundamental "boom" rfl

end StockAnalysis
